import Mathlib

/-!
Verification development for the policy-gradient agents of `agents.py`
(REINFORCE, Actor-Critic, REINFORCE-with-baseline for the 2048 game).

Conventions of the shallow embedding:
* Machine floats are embedded as exact rationals (`ℚ`), or as reals (`ℝ`)
  where the source composes transcendental functions.
* Batched one-dimensional arrays (shape `[B]`) are `List ℚ`;
  a `[B, 1]` column produced by the critic's batched forward pass is also a
  `List ℚ` of its single-entry rows, and the numpy broadcasting of a
  `[B, 1]` column against a `[B]` vector - which yields a `[B, B]` matrix
  with entry `(i, j)` combining row `i` of the column with entry `j` of the
  vector - is embedded by the explicit outer operation `outerOp` below.
* The actor network is an abstract logits function `L : Obs → Fin 4 → ℚ`,
  the critic an abstract value function `C : Obs → ℚ` (its `[1]`-shaped
  output holds one scalar), and the transcendental `exp`/`log` used by
  softmax and the log-likelihood are abstract parameters `e`/`lg`;
  claims about them are stated for every such function, or at concrete
  instantiations when only the data flow is at issue.
-/

/-- Modelled from the spec: the `Transition` class itself lives in
`utils.py`, outside `src/`, so its field layout is taken from the spec's
data model - every field has a leading batch dimension; `reward` is one
scalar per step (shape `[B]`), `done` the 0/1 episode terminator of shape
`[B]` used arithmetically as `1.0 - done`, `action` a discrete action id,
`action_mask` one 0/1 row of length 4 per step. Observations are kept
abstract. -/
structure TransitionBatch (Obs : Type) where
  observation : List Obs
  action : List (Fin 4)
  actionMask : List (Fin 4 → Bool)
  reward : List ℚ
  done : List ℚ
  nextObservation : List Obs

/-- Embedding of `jnp.mean` on a one-dimensional array: sum divided by length. -/
def mean (l : List ℚ) : ℚ := l.sum / l.length

/-- One iteration of the reverse loop of
`ReinforcePolicy.compute_discounted_returns` (`agents.py` lines 267-269):
from the pair `(rewards[i], dones[i])` and the accumulator holding the
returns already written for indices `i+1, ...` together with the running
return carried out of step `i+1`, compute
`running_return = rewards[i] + discount_factor * running_return * (1.0 - dones[i])`
and write it at position `i`. -/
def discountedStep (discount_factor : ℚ) (rd : ℚ × ℚ) (acc : List ℚ × ℚ) : List ℚ × ℚ :=
  let running_return := rd.1 + discount_factor * acc.2 * (1 - rd.2)
  (running_return :: acc.1, running_return)

/-- Embedding of `ReinforcePolicy.compute_discounted_returns`
(`agents.py` lines 247-271): the source iterates `i` from the last index
down to `0` with `running_return` initialised to `0.0`, storing each
`running_return` at position `i`; `List.foldr` of `discountedStep` over the
zipped rewards/dones is exactly that reverse iteration. -/
def compute_discounted_returns (transitions_reward transitions_done : List ℚ)
    (discount_factor : ℚ) : List ℚ :=
  ((transitions_reward.zip transitions_done).foldr (discountedStep discount_factor) ([], 0)).1

/-- Weight the masked softmax assigns to action `a` before normalisation:
`jnp.where(action_mask, logits, -jnp.inf)` sends forbidden logits to
`-inf` and `exp(-inf) = 0`, so the softmax numerator is `e (logits a)` on
valid actions and `0` on forbidden ones. Here `e` embeds the exponential
used by `jax.nn.softmax`; in exact arithmetic the max-shift of the
numerically stable softmax cancels between numerator and denominator. -/
def softmaxWeight (e : ℚ → ℚ) (logits : Fin 4 → ℚ) (action_mask : Fin 4 → Bool)
    (a : Fin 4) : ℚ :=
  if action_mask a then e (logits a) else 0

/-- Embedding of the masked softmax computed by both
`ReinforcePolicy.get_action_probabilities` (`agents.py` lines 287-302) and
`BaseActorCriticPolicy.get_action_probabilities` (lines 381-392): set
forbidden logits to `-inf`, apply softmax along the action axis, then
re-zero the forbidden entries with `jnp.where(action_mask, probs, 0)`. -/
def maskedSoftmax (e : ℚ → ℚ) (logits : Fin 4 → ℚ) (action_mask : Fin 4 → Bool)
    (a : Fin 4) : ℚ :=
  let p := softmaxWeight e logits action_mask a / ∑ b, softmaxWeight e logits action_mask b
  if action_mask a then p else 0

/-- Embedding of `ReinforcePolicy.get_action_probabilities` on a single
unbatched observation (its `observation.ndim == 4` branch is not taken):
actor logits `L observation`, then the masked softmax. -/
def reinforce_get_action_probabilities {Obs : Type} (e : ℚ → ℚ) (L : Obs → Fin 4 → ℚ)
    (observation : Obs) (action_mask : Fin 4 → Bool) : Fin 4 → ℚ :=
  maskedSoftmax e (L observation) action_mask

/-- Embedding of `BaseActorCriticPolicy.get_action_probabilities`
(`agents.py` lines 370-394): actor logits, then the masked softmax (this
override has no batched branch). -/
def base_actor_critic_get_action_probabilities {Obs : Type} (e : ℚ → ℚ)
    (L : Obs → Fin 4 → ℚ) (observation : Obs) (action_mask : Fin 4 → Bool) : Fin 4 → ℚ :=
  maskedSoftmax e (L observation) action_mask

/-- Embedding of `ReinforcePolicy.get_action_probabilities` as called by
`ReinforcePolicy.compute_loss` with a batched observation array and a batch
of masks: the `observation.ndim == 4` branch replaces the batch by
`observation[0]`, the resulting single logits vector of shape `[4]`
broadcasts against the `[B, 4]` mask inside `jnp.where`, and the softmax
and final re-zeroing act row by row - row `i` is therefore the masked
softmax of the first observation's logits under mask `i`. An empty batch
(for which `observation[0]` would fault) is mapped to the empty list. -/
def reinforce_get_action_probabilities_batched {Obs : Type} (e : ℚ → ℚ)
    (L : Obs → Fin 4 → ℚ) (observations : List Obs)
    (action_masks : List (Fin 4 → Bool)) : List (Fin 4 → ℚ) :=
  match observations with
  | [] => []
  | o :: _ => action_masks.map (fun m => maskedSoftmax e (L o) m)

/-- Embedding of `ReinforcePolicy.compute_loss` (`agents.py` lines
306-331): discounted returns, batched call of
`get_action_probabilities` on the whole observation array, `jnp.log`
followed by the per-row selection `[jnp.arange(B), actions]` (equal to
`lg` of the selected probability), and `loss = -jnp.mean(G * logp)`.
The function `lg` embeds `jnp.log`. -/
def reinforce_compute_loss {Obs : Type} (e lg : ℚ → ℚ) (L : Obs → Fin 4 → ℚ)
    (discount_factor : ℚ) (t : TransitionBatch Obs) : ℚ :=
  let discounted_returns := compute_discounted_returns t.reward t.done discount_factor
  let action_probs := reinforce_get_action_probabilities_batched e L t.observation t.actionMask
  let action_log_probs := (action_probs.zip t.action).map (fun pa => lg (pa.1 pa.2))
  let loss := -(mean ((discounted_returns.zip action_log_probs).map (fun x => x.1 * x.2)))
  loss

/-- Reference loss following the spec's words for claim C2: the REINFORCE
loss with `actions_to_probabilities`-style per-example selection - row `i`
evaluates `get_action_probabilities` on row `i`'s own observation and
row `i`'s own action mask and selects the entry at `action[i]`. -/
def reinforce_loss_per_example_spec {Obs : Type} (e lg : ℚ → ℚ) (L : Obs → Fin 4 → ℚ)
    (discount_factor : ℚ) (t : TransitionBatch Obs) : ℚ :=
  let discounted_returns := compute_discounted_returns t.reward t.done discount_factor
  let action_log_probs := (t.observation.zip (t.actionMask.zip t.action)).map
    (fun x => lg (maskedSoftmax e (L x.1) x.2.1 x.2.2))
  let loss := -(mean ((discounted_returns.zip action_log_probs).map (fun x => x.1 * x.2)))
  loss

/-- Embedding of the numpy broadcasting of a `[B, 1]` column against a
`[B]` vector under a binary operation: the result is the `[B, B]` matrix
whose entry `(i, j)` is `f column[i] vector[j]`. -/
def outerOp (f : ℚ → ℚ → ℚ) (column vector : List ℚ) : List (List ℚ) :=
  column.map (fun x => vector.map (fun y => f x y))

/-- Embedding of `jnp.mean` on a matrix: sum of all entries divided by
their count. -/
def matrixMean (m : List (List ℚ)) : ℚ := mean m.flatten

/-- Embedding of the `jax.lax.scan` in `ActorCriticPolicy.compute_loss`
(`agents.py` lines 431-443) and `ReinforceBaselinePolicy.compute_loss`
(lines 496-507): for each row index, evaluate
`get_action_probabilities` on that row's observation and mask and take
`lg` of the probability of that row's action. -/
def action_log_probabilities {Obs : Type} (e lg : ℚ → ℚ) (L : Obs → Fin 4 → ℚ)
    (observations : List Obs) (action_masks : List (Fin 4 → Bool))
    (actions : List (Fin 4)) : List ℚ :=
  (observations.zip (action_masks.zip actions)).map
    (fun x => lg (maskedSoftmax e (L x.1) x.2.1 x.2.2))

/-- Embedding of `ActorCriticPolicy.compute_loss` (`agents.py` lines
402-455). The critic's batched forward pass `get_batch_logits` yields a
column of shape `[B, 1]` (one `[1]`-shaped output per row, per the
`Network.get_logits` docstring), while `reward` and `done` have shape
`[B]`; consequently `next_values * (1.0 - dones)` broadcasts to `[B, B]`
(entry `(i, j)` is `V'(s_i) * (1 - done_j)`), and the subsequent
`rewards + discount_factor * sg(...) - sg(predicted_values)` and
`predicted_values - sg(rewards + discount_factor * ...)` are `[B, B]`
matrices; `jax.lax.stop_gradient` is the identity on forward values.
Actor loss is `-jnp.mean` of `log_probs * actor_advantage` (the `[B]`
log-prob vector broadcasting across rows), critic loss is
`0.5 * jnp.mean(critic_advantage ** 2)`, and the total loss their sum. -/
def actor_critic_compute_loss {Obs : Type} (e lg : ℚ → ℚ) (L : Obs → Fin 4 → ℚ)
    (C : Obs → ℚ) (discount_factor : ℚ) (t : TransitionBatch Obs) : ℚ :=
  let predicted_values := t.observation.map C
  let next_values := t.nextObservation.map C
  let bootstrap := outerOp (fun v d => v * (1 - d)) next_values t.done
  let actor_advantage := (predicted_values.zip bootstrap).map
    (fun pr => (t.reward.zip pr.2).map (fun rm => rm.1 + discount_factor * rm.2 - pr.1))
  let critic_advantage := (predicted_values.zip bootstrap).map
    (fun pr => (t.reward.zip pr.2).map (fun rm => pr.1 - (rm.1 + discount_factor * rm.2)))
  let log_probs := action_log_probabilities e lg L t.observation t.actionMask t.action
  let actor_loss :=
    -(matrixMean (actor_advantage.map (fun row => (log_probs.zip row).map (fun x => x.1 * x.2))))
  let critic_loss := (1/2) * matrixMean (critic_advantage.map (fun row => row.map (fun x => x ^ 2)))
  actor_loss + critic_loss

/-- Reference loss following the spec's words for claim C3: per-element
bootstrapped target `r_i + discount_factor * V(s'_i) * (1 - done_i)`,
actor loss the negative mean over the batch of
`log pi(a_i | s_i) * (target_i - V(s_i))`, critic loss half the mean of
`(V(s_i) - target_i) ^ 2`, total their sum. -/
def actor_critic_loss_per_example_spec {Obs : Type} (e lg : ℚ → ℚ) (L : Obs → Fin 4 → ℚ)
    (C : Obs → ℚ) (discount_factor : ℚ) (t : TransitionBatch Obs) : ℚ :=
  let targets := ((t.nextObservation.map C).zip (t.reward.zip t.done)).map
    (fun x => x.2.1 + discount_factor * x.1 * (1 - x.2.2))
  let values := t.observation.map C
  let log_probs := action_log_probabilities e lg L t.observation t.actionMask t.action
  let actor_loss :=
    -(mean (((log_probs.zip targets).zip values).map (fun x => x.1.1 * (x.1.2 - x.2))))
  let critic_loss := (1/2) * mean ((values.zip targets).map (fun x => (x.1 - x.2) ^ 2))
  actor_loss + critic_loss

/-- Concrete failing batch for claim C2 over observations embedded as
`Bool`: two transitions with distinct observations (`false` then `true`),
all actions valid, action `0` taken in both rows, rewards `[1, 1]`,
done `[0, 1]`. -/
def c2FailingBatch : TransitionBatch Bool :=
  ⟨[false, true], [0, 0], [fun _ => true, fun _ => true], [1, 1], [0, 1], [false, false]⟩

/-- The batch of `c2FailingBatch` with the second observation replaced by
the first: the source's loss cannot tell the two batches apart. -/
def c2FailingBatchFirstObs : TransitionBatch Bool :=
  ⟨[false, false], [0, 0], [fun _ => true, fun _ => true], [1, 1], [0, 1], [false, false]⟩

/-- Concrete actor logits for claim C2: observation `true` prefers action
`0` (logit 1), observation `false` gives flat logits. -/
def c2Logits : Bool → Fin 4 → ℚ :=
  fun o a => if o = true ∧ a = 0 then 1 else 0

/-- Concrete failing batch for claim C3 over observations embedded as
`Bool`: two transitions, critic values `V(false) = 0`, `V(true) = 1`,
observations `[false, true]`, next observations `[true, false]`,
rewards `[1, 0]`, done `[0, 0]`, all actions valid, action `0` taken. -/
def c3FailingBatch : TransitionBatch Bool :=
  ⟨[false, true], [0, 0], [fun _ => true, fun _ => true], [1, 0], [0, 0], [true, false]⟩

/-- Concrete critic for claim C3. -/
def c3Critic : Bool → ℚ := fun o => if o then 1 else 0

/-- Modelled from the optax documentation:
`optax.schedules.exponential_decay(init_value, transition_steps,
decay_rate, transition_begin=0, staircase=False, end_value=None)` is the
schedule `count ↦ init_value * decay_rate ^ (max (count - transition_begin) 0 / transition_steps)`
(continuous, `staircase=False`), clipped at `end_value` - a lower bound
when `decay_rate < 1` - when one is given. -/
noncomputable def exponential_decay (init_value transition_steps decay_rate transition_begin : ℝ)
    (end_value : Option ℝ) (count : ℝ) : ℝ :=
  let decayed := init_value * decay_rate ^ (max (count - transition_begin) 0 / transition_steps)
  match end_value with
  | none => decayed
  | some ev => max decayed ev

/-- Embedding of the learning-rate schedule built by `Network.__init__`
(`agents.py` lines 50-53): with `lr_decay = None` the optimizer gets the
constant `learning_rate`; otherwise the source calls
`optax.schedules.exponential_decay(learning_rate, lr_decay, min(learning_rate, 1e-5), 0.5)`
with positional arguments, so `min(learning_rate, 1e-5)` lands in the
`decay_rate` slot, `0.5` in the `transition_begin` slot, and no
`end_value` floor is set. -/
noncomputable def network_learning_rate (learning_rate : ℝ) (lr_decay : Option ℕ) (count : ℝ) : ℝ :=
  match lr_decay with
  | none => learning_rate
  | some d => exponential_decay learning_rate d (min learning_rate (1/100000)) (1/2) none count

/-- Schedule that claim C6 and the `Network.__init__` docstring describe
(modelled from the spec's words): exponential halving of the nominal rate
over `lr_decay` steps, floored at the smaller of the nominal rate and
`1e-5`; constant when no decay step count is given. -/
noncomputable def claimed_learning_rate (learning_rate : ℝ) (lr_decay : Option ℕ) (count : ℝ) : ℝ :=
  match lr_decay with
  | none => learning_rate
  | some d => max (learning_rate * (1/2) ^ (count / d)) (min learning_rate (1/100000))

/-- Embedding of `RandomPolicy.compute_loss` (`agents.py` lines 215-216):
`jnp.array(0, dtype=jnp.float32)` together with an empty metrics dict,
independent of the parameters and the transitions. -/
def random_policy_compute_loss {P T : Type} (_model_parameters : P) (_transitions : T) :
    ℚ × List (String × ℚ) :=
  (0, [])

/-- Embedding of `RandomPolicy.update` (`agents.py` lines 218-219): the
input state is returned unchanged. -/
def random_policy_update {S T : Type} (state : S) (_transitions : T) : S := state

theorem foldr_discountedStep_snd (g : ℚ) (l : List (ℚ × ℚ)) :
    (l.foldr (discountedStep g) ([], 0)).2 =
      (l.foldr (discountedStep g) ([], 0)).1.headD 0 := by
  cases l with
  | nil => rfl
  | cons x xs => rfl

theorem foldr_discountedStep_length (g : ℚ) (l : List (ℚ × ℚ)) :
    (l.foldr (discountedStep g) ([], 0)).1.length = l.length := by
  induction l with
  | nil => rfl
  | cons x xs ih => simpa [discountedStep] using ih

theorem compute_discounted_returns_nil (g : ℚ) (ds : List ℚ) :
    compute_discounted_returns [] ds g = [] := rfl

theorem compute_discounted_returns_cons (g r d : ℚ) (rs ds : List ℚ) :
    compute_discounted_returns (r :: rs) (d :: ds) g =
      (r + g * (compute_discounted_returns rs ds g).headD 0 * (1 - d)) ::
        compute_discounted_returns rs ds g := by
  unfold compute_discounted_returns
  rw [List.zip_cons_cons, List.foldr_cons, ← foldr_discountedStep_snd]
  rfl

theorem compute_discounted_returns_length (g : ℚ) (rs ds : List ℚ)
    (h : ds.length = rs.length) :
    (compute_discounted_returns rs ds g).length = rs.length := by
  unfold compute_discounted_returns
  rw [foldr_discountedStep_length, List.length_zip, h, Nat.min_self]

theorem headD_eq_getD_zero (l : List ℚ) : l.headD 0 = l.getD 0 0 := by
  cases l <;> rfl

/-- Claim C1: for every non-empty transition batch and every discount
factor, `ReinforcePolicy.compute_discounted_returns` returns a vector of
the same length as the batch satisfying, for each index `i`,
`G[i] = reward[i] + discount_factor * G[i+1] * (1 - done[i])` with the
return beyond the batch end treated as `0`; on rewards `[1,1,0,2]`,
done `[0,1,0,1]`, discount `1/2` the result is `[3/2, 1, 1, 2]`, so value
never flows backward across an index with `done = 1`. -/
theorem c1_compute_discounted_returns_recurrence (rewards dones : List ℚ)
    (discount_factor : ℚ) (hlen : dones.length = rewards.length)
    (_hne : rewards ≠ []) :
    (compute_discounted_returns rewards dones discount_factor).length = rewards.length ∧
    (∀ i, i < rewards.length →
      (compute_discounted_returns rewards dones discount_factor).getD i 0 =
        rewards.getD i 0 +
          discount_factor *
            (compute_discounted_returns rewards dones discount_factor).getD (i + 1) 0 *
            (1 - dones.getD i 0)) ∧
    compute_discounted_returns [1, 1, 0, 2] [0, 1, 0, 1] (1/2) = [3/2, 1, 1, 2] := by
  refine ⟨compute_discounted_returns_length _ _ _ hlen, ?_,
    by norm_num [compute_discounted_returns, discountedStep]⟩
  clear _hne
  induction rewards generalizing dones with
  | nil => intro i hi; simp at hi
  | cons r rs ih =>
    cases dones with
    | nil => simp at hlen
    | cons d ds =>
      intro i hi
      rw [compute_discounted_returns_cons]
      cases i with
      | zero =>
        simp only [List.getD_cons_zero, List.getD_cons_succ]
        rw [headD_eq_getD_zero]
      | succ j =>
        simp only [List.getD_cons_succ]
        exact ih ds (by simpa using hlen) j (by simpa using hi)

/-- Witness for C1 at the spec's two-episode batch. -/
theorem c1_compute_discounted_returns_recurrence_witness :
    (([0, 1, 0, 1] : List ℚ).length = ([1, 1, 0, 2] : List ℚ).length ∧
      ([1, 1, 0, 2] : List ℚ) ≠ []) ∧
    (compute_discounted_returns [1, 1, 0, 2] [0, 1, 0, 1] (1/2)).length =
      ([1, 1, 0, 2] : List ℚ).length ∧
    compute_discounted_returns [1, 1, 0, 2] [0, 1, 0, 1] (1/2) = [3/2, 1, 1, 2] :=
  ⟨⟨by decide, by decide⟩,
   (c1_compute_discounted_returns_recurrence [1, 1, 0, 2] [0, 1, 0, 1] (1/2)
     (by decide) (by decide)).1,
   (c1_compute_discounted_returns_recurrence [1, 1, 0, 2] [0, 1, 0, 1] (1/2)
     (by decide) (by decide)).2.2⟩

theorem maskedSoftmax_of_not_valid (e : ℚ → ℚ) (logits : Fin 4 → ℚ)
    (action_mask : Fin 4 → Bool) (a : Fin 4) (h : action_mask a = false) :
    maskedSoftmax e logits action_mask a = 0 := by
  simp [maskedSoftmax, h]

theorem maskedSoftmax_valid_sum (e : ℚ → ℚ) (logits : Fin 4 → ℚ)
    (action_mask : Fin 4 → Bool) (he : ∀ x, 0 < e x) (hm : ∃ a, action_mask a = true) :
    (∑ a ∈ Finset.univ.filter (fun a => action_mask a = true),
      maskedSoftmax e logits action_mask a) = 1 := by
  obtain ⟨a0, ha0⟩ := hm
  have hZ : 0 < ∑ b, softmaxWeight e logits action_mask b := by
    refine Finset.sum_pos' (fun b _ => ?_) ⟨a0, Finset.mem_univ _, ?_⟩
    · by_cases hb : action_mask b <;> simp [softmaxWeight, hb, (he _).le]
    · simpa [softmaxWeight, ha0] using he (logits a0)
  have hfil : (∑ a ∈ Finset.univ.filter (fun a => action_mask a = true),
      softmaxWeight e logits action_mask a) = ∑ b, softmaxWeight e logits action_mask b := by
    rw [Finset.sum_filter]
    refine Finset.sum_congr rfl (fun b _ => ?_)
    by_cases hb : action_mask b <;> simp [softmaxWeight, hb]
  have hms : ∀ a ∈ Finset.univ.filter (fun a => action_mask a = true),
      maskedSoftmax e logits action_mask a =
        softmaxWeight e logits action_mask a / ∑ b, softmaxWeight e logits action_mask b := by
    intro a ha
    simp [maskedSoftmax, (Finset.mem_filter.mp ha).2]
  rw [Finset.sum_congr rfl hms, ← Finset.sum_div, hfil, div_self hZ.ne']

/-- Claim C4: for every unbatched observation and every action mask with at
least one valid action, the probability vector returned by
`get_action_probabilities` (in `ReinforcePolicy` and in
`BaseActorCriticPolicy`) is exactly `0` at every masked-out position, and
its entries at valid positions sum exactly to `1` (hence within any
tolerance), for every positive embedding `e` of the exponential. -/
theorem c4_get_action_probabilities_masked_distribution {Obs : Type} (e : ℚ → ℚ)
    (L : Obs → Fin 4 → ℚ) (observation : Obs) (action_mask : Fin 4 → Bool)
    (he : ∀ x, 0 < e x) (hm : ∃ a, action_mask a = true) :
    (∀ a, action_mask a = false →
      reinforce_get_action_probabilities e L observation action_mask a = 0 ∧
      base_actor_critic_get_action_probabilities e L observation action_mask a = 0) ∧
    (∑ a ∈ Finset.univ.filter (fun a => action_mask a = true),
      reinforce_get_action_probabilities e L observation action_mask a) = 1 ∧
    (∑ a ∈ Finset.univ.filter (fun a => action_mask a = true),
      base_actor_critic_get_action_probabilities e L observation action_mask a) = 1 := by
  refine ⟨fun a ha => ⟨?_, ?_⟩, ?_, ?_⟩
  · exact maskedSoftmax_of_not_valid e (L observation) action_mask a ha
  · exact maskedSoftmax_of_not_valid e (L observation) action_mask a ha
  · exact maskedSoftmax_valid_sum e (L observation) action_mask he hm
  · exact maskedSoftmax_valid_sum e (L observation) action_mask he hm

/-- Witness for C4 at the constant exponential, flat logits and the one-hot
mask allowing only action 0. -/
theorem c4_get_action_probabilities_masked_distribution_witness :
    ((∀ x : ℚ, 0 < (fun _ : ℚ => (1 : ℚ)) x) ∧
      (∃ a : Fin 4, (fun a : Fin 4 => a == 0) a = true)) ∧
    (∀ a, (fun a : Fin 4 => a == 0) a = false →
      reinforce_get_action_probabilities (fun _ : ℚ => (1 : ℚ)) (fun _ : Unit => fun _ => 0) ()
        (fun a : Fin 4 => a == 0) a = 0 ∧
      base_actor_critic_get_action_probabilities (fun _ : ℚ => (1 : ℚ)) (fun _ : Unit => fun _ => 0) ()
        (fun a : Fin 4 => a == 0) a = 0) ∧
    (∑ a ∈ Finset.univ.filter (fun a : Fin 4 => (fun a : Fin 4 => a == 0) a = true),
      reinforce_get_action_probabilities (fun _ : ℚ => (1 : ℚ)) (fun _ : Unit => fun _ => 0) ()
        (fun a : Fin 4 => a == 0) a) = 1 ∧
    (∑ a ∈ Finset.univ.filter (fun a : Fin 4 => (fun a : Fin 4 => a == 0) a = true),
      base_actor_critic_get_action_probabilities (fun _ : ℚ => (1 : ℚ)) (fun _ : Unit => fun _ => 0) ()
        (fun a : Fin 4 => a == 0) a) = 1 :=
  ⟨⟨fun _ => one_pos, ⟨0, rfl⟩⟩,
    c4_get_action_probabilities_masked_distribution (fun _ : ℚ => (1 : ℚ))
      (fun _ : Unit => fun _ => 0) () (fun a : Fin 4 => a == 0)
      (fun _ => one_pos) ⟨0, rfl⟩⟩

/-- Claim C10: when `ReinforcePolicy.get_action_probabilities` receives a
batched observation array together with a batch of masks, every row of the
returned probabilities is the masked softmax of the FIRST observation's
logits under that row's mask, and consequently
`ReinforcePolicy.compute_loss` is unchanged by replacing every observation
except the first (the actor network is evaluated on `observation[0]`
only), for all embeddings of exp/log, all actor parameters and all
remaining batch fields. -/
theorem c10_reinforce_batched_first_observation {Obs : Type} (e lg : ℚ → ℚ)
    (L : Obs → Fin 4 → ℚ) (discount_factor : ℚ) (o : Obs) (rest rest' : List Obs)
    (acts : List (Fin 4)) (masks : List (Fin 4 → Bool)) (rewards dones : List ℚ)
    (nxt nxt' : List Obs) :
    reinforce_get_action_probabilities_batched e L (o :: rest) masks =
      masks.map (fun m => maskedSoftmax e (L o) m) ∧
    reinforce_compute_loss e lg L discount_factor
        ⟨o :: rest, acts, masks, rewards, dones, nxt⟩ =
      reinforce_compute_loss e lg L discount_factor
        ⟨o :: rest', acts, masks, rewards, dones, nxt'⟩ :=
  ⟨rfl, rfl⟩

/-- Claim C2 fails on the code: at `c2FailingBatch`, whose two rows carry
different observations, the loss computed by
`ReinforcePolicy.compute_loss` is unchanged when the second observation is
replaced by the first (the actor network is evaluated on `observation[0]`
only) and differs from the per-example loss the claim describes; the
exponential and logarithm are instantiated with `e = (fun x => x + 1)` and
`lg = id` to exhibit concrete values. -/
theorem c2_reinforce_loss_uses_first_observation_only :
    reinforce_compute_loss (fun x => x + 1) (fun x => x) c2Logits (1/2) c2FailingBatch =
      reinforce_compute_loss (fun x => x + 1) (fun x => x) c2Logits (1/2) c2FailingBatchFirstObs ∧
    reinforce_compute_loss (fun x => x + 1) (fun x => x) c2Logits (1/2) c2FailingBatch = -(5/16) ∧
    reinforce_loss_per_example_spec (fun x => x + 1) (fun x => x) c2Logits (1/2) c2FailingBatch
      = -(31/80) := by
  refine ⟨rfl, ?_, ?_⟩ <;>
    norm_num [reinforce_compute_loss, reinforce_loss_per_example_spec,
      reinforce_get_action_probabilities_batched, maskedSoftmax, softmaxWeight,
      compute_discounted_returns, discountedStep, mean, c2FailingBatch,
      c2FailingBatchFirstObs, c2Logits, Fin.sum_univ_four,
      (by decide : ¬((1 : Fin 4) = 0)), (by decide : ¬((2 : Fin 4) = 0)),
      (by decide : ¬((3 : Fin 4) = 0))]

/-- Claim C3 fails on the code: at `c3FailingBatch` the loss returned by
`ActorCriticPolicy.compute_loss` is `3/8`, while actor loss plus critic
loss with the per-element target `r_i + (1/2) * V(s'_i) * (1 - done_i)`
is `3/4` - the `[B, 1]`-shaped critic outputs broadcast against the
`[B]`-shaped rewards/dones into `[B, B]` matrices, so the code averages
over all pairs `(i, j)` instead of over the batch; the exponential and
logarithm are instantiated with `e = (fun x => 1)` and `lg = id`. -/
theorem c3_actor_critic_loss_broadcast_mismatch :
    actor_critic_compute_loss (fun _ => 1) (fun x => x) (fun _ _ => 0) c3Critic (1/2)
      c3FailingBatch = 3/8 ∧
    actor_critic_loss_per_example_spec (fun _ => 1) (fun x => x) (fun _ _ => 0) c3Critic (1/2)
      c3FailingBatch = 3/4 ∧
    actor_critic_compute_loss (fun _ => 1) (fun x => x) (fun _ _ => 0) c3Critic (1/2)
        c3FailingBatch ≠
      actor_critic_loss_per_example_spec (fun _ => 1) (fun x => x) (fun _ _ => 0) c3Critic (1/2)
        c3FailingBatch := by
  refine ⟨?_, ?_, ?_⟩ <;>
    norm_num [actor_critic_compute_loss, actor_critic_loss_per_example_spec,
      action_log_probabilities, maskedSoftmax, softmaxWeight, outerOp, matrixMean, mean,
      c3FailingBatch, c3Critic, Fin.sum_univ_four]

/-- Claim C6 fails on the code: with learning rate `1/1000`, `lr_decay = 1`
and step count `3`, the schedule the source builds - which passes
`min(learning_rate, 1e-5)` in optax's `decay_rate` slot and `0.5` in its
`transition_begin` slot, with no `end_value` floor - yields a rate below
`1e-12`, strictly smaller than the halving-with-floor schedule the claim
(and the source's own docstring) describes, which yields `1/8000`; with no
decay step count the rate is constant, as claimed. -/
theorem c6_learning_rate_schedule_mismatch :
    network_learning_rate (1/1000) (some 1) 3 < claimed_learning_rate (1/1000) (some 1) 3 ∧
    network_learning_rate (1/1000) (some 1) 3 ≠ claimed_learning_rate (1/1000) (some 1) 3 ∧
    (∀ lr count : ℝ, network_learning_rate lr none count = lr) := by
  have h1 : network_learning_rate (1/1000) (some 1) 3 =
      (1/1000 : ℝ) * (1/100000 : ℝ) ^ ((5 : ℝ)/2) := by
    show exponential_decay (1/1000) ((1 : ℕ) : ℝ) (min (1/1000) (1/100000)) (1/2) none 3 =
      (1/1000 : ℝ) * (1/100000 : ℝ) ^ ((5 : ℝ)/2)
    unfold exponential_decay
    norm_num
  have h2 : claimed_learning_rate (1/1000) (some 1) 3 = 1/8000 := by
    show max ((1/1000 : ℝ) * (1/2) ^ ((3 : ℝ)/((1 : ℕ) : ℝ))) (min (1/1000) (1/100000)) = 1/8000
    have h3 : ((3 : ℝ)/((1 : ℕ) : ℝ)) = ((3 : ℕ) : ℝ) := by norm_num
    rw [h3, Real.rpow_natCast]
    norm_num
  have hlt : (1/1000 : ℝ) * (1/100000 : ℝ) ^ ((5 : ℝ)/2) < 1/8000 := by
    have hb : (1/100000 : ℝ) ^ ((5 : ℝ)/2) ≤ (1/100000 : ℝ) ^ ((2 : ℕ) : ℝ) :=
      Real.rpow_le_rpow_of_exponent_ge (by norm_num) (by norm_num) (by norm_num)
    rw [Real.rpow_natCast] at hb
    nlinarith [hb]
  refine ⟨?_, ?_, fun lr count => rfl⟩
  · rw [h1, h2]; exact hlt
  · rw [h1, h2]; exact ne_of_lt hlt

/-- Counterexample for claim C8: on the empty transition batch the source's
`compute_discounted_returns` does not signal anything - its reverse loop
runs zero iterations and it returns the empty vector, an ordinary value
(no `EmptyBatchError`, nor any other error path, exists anywhere in
`agents.py`), so the update is not aborted. -/
theorem c8_empty_batch_counterexample :
    compute_discounted_returns [] [] (1/2) = [] := rfl

/-- Claim C8 amended: the empty transition batch is accepted silently -
`compute_discounted_returns` returns the empty vector (of length 0) for
every discount factor, and the downstream loss then takes a mean over zero
elements instead of an `EmptyBatchError` aborting the update. -/
theorem c8_empty_batch_accepted (discount_factor : ℚ) :
    compute_discounted_returns [] [] discount_factor = [] ∧
    (compute_discounted_returns [] [] discount_factor).length = 0 :=
  ⟨rfl, rfl⟩

/-- Claim C9: `RandomPolicy.update` is the identity on the policy state -
iterating it any number of times returns the input state - and
`RandomPolicy.compute_loss` returns a zero loss with an empty metrics
mapping, for every state, parameter set and transition batch. -/
theorem c9_random_policy_update_identity {S P T : Type} (state : S)
    (model_parameters : P) (transitions : T) (n : ℕ) :
    random_policy_update state transitions = state ∧
    (fun s => random_policy_update s transitions)^[n] state = state ∧
    random_policy_compute_loss model_parameters transitions = ((0 : ℚ), ([] : List (String × ℚ))) :=
  ⟨rfl, Function.iterate_fixed rfl n, rfl⟩
